import Mathlib

/-!
Shallow embedding of the `mjtv` browser TV application, covering the parts of
the code the specification claims speak about:

* the `Channel` record and the built-in default channel list (`constants.ts`),
* the application shell's channel-state handlers (`App.tsx`):
  `handleChannelChange`, `handleSaveChannels`, `handleToggleFavorite`,
* the channel store (`services/db.ts`): `DBService.init`,
  `DBService.saveAllChannels`, with local storage and the remote JSON fetch
  modelled as explicit inputs,
* the auth gate (`services/auth.ts` and `LoginModal.tsx`),
* the media session controller (`components/VideoPlayer.tsx`): source
  classification, the adaptive-streaming error handler, and the
  autoplay-fallback sequence,
* the voice assistant bridge (`services/geminiLive.ts` and
  `components/VoiceRemote.tsx`): the resource state touched by
  `disconnect` and the three session exit paths.

JavaScript strings are embedded as Lean `String`; the JS string operations
`includes`, `endsWith` and `toLowerCase` are defined below on character
lists, matching their ECMAScript behaviour on the ASCII data the program
uses.
-/

/-- JS `sub.isPrefixOf s` on character lists: `charListPref sub s` is true
iff `sub` occurs at the start of `s`. -/
def charListPref : List Char → List Char → Bool
  | [], _ => true
  | _ :: _, [] => false
  | a :: as, b :: bs => a == b && charListPref as bs

/-- `charListIncludes sub s` is true iff `sub` occurs as a contiguous
substring of `s` (the semantics of JS `s.includes(sub)`). -/
def charListIncludes (sub : List Char) : List Char → Bool
  | [] => charListPref sub []
  | c :: t => charListPref sub (c :: t) || charListIncludes sub t

/-- JS `s.includes(sub)`. -/
def strIncludes (s sub : String) : Bool :=
  charListIncludes sub.toList s.toList

/-- JS `s.endsWith(sub)` (used only to state the spec's "URL suffix"
classification; the code itself uses `includes`). -/
def strEndsWith (s sub : String) : Bool :=
  charListPref sub.toList.reverse s.toList.reverse

/-- JS `s.toLowerCase()` (ASCII case folding, which is all the data uses). -/
def strToLower (s : String) : String :=
  ⟨s.toList.map Char.toLower⟩

/-- The `Channel` record of `types.ts`.  `rating` and `isFavorite` are
optional fields (`rating?: number`, `isFavorite?: boolean`); a missing field
is `none`.  Ratings are decimal literals in the source, embedded as `ℚ`. -/
structure Channel where
  id : String
  name : String
  category : String
  description : String
  videoUrl : String
  thumbnail : String
  currentProgram : String
  rating : Option ℚ := none
  isFavorite : Option Bool := none
deriving DecidableEq, Repr

/-- `LIVE_STREAM_URL` from `constants.ts`. -/
def LIVE_STREAM_URL : String :=
  "https://live20.bozztv.com/akamaissh101/ssh101/evtele2xrdc/playlist.m3u8"

/-- `DEFAULT_CHANNELS` from `constants.ts`. -/
def DEFAULT_CHANNELS : List Channel :=
  [ { id := "live1", name := "MJ TV Info", category := "Information",
      description := "Diffusion en direct.", videoUrl := LIVE_STREAM_URL,
      thumbnail := "https://picsum.photos/id/1018/400/225",
      currentProgram := "Le Journal", rating := some (49/10),
      isFavorite := some true },
    { id := "nature1", name := "Nature Zen", category := "Documentaire",
      description := "Paysages apaisants et vie sauvage en haute définition.",
      videoUrl := LIVE_STREAM_URL,
      thumbnail := "https://picsum.photos/id/1018/400/225",
      currentProgram := "Merveilles de la Forêt", rating := some (9/2) },
    { id := "cine1", name := "Ciné Classique", category := "Cinéma",
      description := "Les grands classiques du cinéma d\u0027animation.",
      videoUrl := LIVE_STREAM_URL,
      thumbnail := "https://picsum.photos/id/1025/400/225",
      currentProgram := "Le Grand Lapin", rating := some (19/5) },
    { id := "toon1", name := "Toon TV", category := "Enfants",
      description := "Dessins animés et aventures pour les plus jeunes.",
      videoUrl := LIVE_STREAM_URL,
      thumbnail := "https://picsum.photos/id/1040/400/225",
      currentProgram := "La Quête du Dragon", rating := some (21/5) },
    { id := "sport1", name := "Sport Extrême", category := "Sport",
      description := "Adrénaline pure et compétitions de haut niveau.",
      videoUrl := LIVE_STREAM_URL,
      thumbnail := "https://picsum.photos/id/1035/400/225",
      currentProgram := "Championnat de Glisse", rating := some (47/10) } ]

/-! ## Application shell (`App.tsx`) -/

/-- `handleChannelChange` (`App.tsx:57-69`), restricted to its state effect
on `currentChannelId`.  The code resolves the requested id through
`channels.find(c => c.id === id)
  || channels.find(c => c.name.toLowerCase().includes(id.toLowerCase()))
  || channels.find(c => c.id.includes(id))`
and updates the active id only when a target was found. -/
def handleChannelChange (channels : List Channel) (id cur : String) : String :=
  match channels.find? (fun c => c.id == id) with
  | some target => target.id
  | none =>
    match channels.find? (fun c =>
        strIncludes (strToLower c.name) (strToLower id)) with
    | some target => target.id
    | none =>
      match channels.find? (fun c => strIncludes c.id id) with
      | some target => target.id
      | none => cur

/-- `handleSaveChannels` (`App.tsx:71-81`), restricted to its state effect:
the channel collection is replaced by `updatedChannels`, and
`currentChannelId` is re-pointed to `updatedChannels[0].id` exactly when the
old id is not found in the new collection and the new collection is
non-empty. -/
def handleSaveChannels (updatedChannels : List Channel) (currentChannelId : String) :
    List Channel × String :=
  ( updatedChannels,
    if (updatedChannels.find? (fun c => c.id == currentChannelId)).isNone
        && decide (updatedChannels.length > 0) then
      match updatedChannels with
      | [] => currentChannelId
      | c :: _ => c.id
    else currentChannelId )

/-- JS `!c.isFavorite` on the optional boolean field: `undefined` and
`false` are falsy, `true` is truthy. -/
def jsNotFav : Option Bool → Bool
  | some true => false
  | _ => true

/-- The per-channel update performed by `handleToggleFavorite`
(`App.tsx:91-96`): `c.id === channelId ? { ...c, isFavorite: !c.isFavorite } : c`. -/
def togChannel (channelId : String) (c : Channel) : Channel :=
  if c.id == channelId then { c with isFavorite := some (jsNotFav c.isFavorite) }
  else c

/-- `handleToggleFavorite` (`App.tsx:91-96`), restricted to the new channel
collection it passes to `handleSaveChannels`. -/
def handleToggleFavorite (channels : List Channel) (channelId : String) :
    List Channel :=
  channels.map (togChannel channelId)

/-! ## Channel store (`services/db.ts`)

Local storage is modelled by what the string under `mj_tv_data_v2` parses
to: absent, unparseable (`JSON.parse` throws), parseable but not an array,
or an array of channel records.  JSON serialization of a channel array is
faithful for these flat records (strings, decimal numbers, booleans;
omitted optional fields round-trip to omitted), so `saveAllChannels`
stores the array itself.  The remote `channels.json` fetch is an explicit
input with the failure shapes the code distinguishes. -/

/-- The parse status of the string stored under the `mj_tv_data_v2` key. -/
inductive Stored
  | absent
  | corrupt
  | nonArray
  | arr (cs : List Channel)
deriving DecidableEq, Repr

/-- Outcome of `fetch('channels.json')` followed by `response.json()`. -/
inductive FetchResult
  | fail
  | notOk
  | jsonThrows
  | nonArray
  | arr (cs : List Channel)
deriving DecidableEq, Repr

namespace DBService

/-- `DBService.saveAllChannels` (`db.ts:61-67`): overwrite the stored
collection with `JSON.stringify(channels)` (`localStorage.setItem`
succeeding; a quota failure is caught and logged by the code and is not
modelled). -/
def saveAllChannels (channels : List Channel) (_s : Stored) : Stored :=
  .arr channels

/-- `DBService.init` (`db.ts:15-56`): return the locally stored array if it
parses to a non-empty array; else the fetched `channels.json` array if the
response is ok and parses to a non-empty array (also persisting it); else
`DEFAULT_CHANNELS` (also persisting it).  Every failure is caught inside
the function, so it is total.  Returns the channel list together with the
storage state it leaves behind. -/
def init (s : Stored) (f : FetchResult) : List Channel × Stored :=
  match s with
  | .arr (c :: cs) => (c :: cs, .arr (c :: cs))
  | _ =>
    match f with
    | .arr (c :: cs) => (c :: cs, .arr (c :: cs))
    | _ => (DEFAULT_CHANNELS, .arr DEFAULT_CHANNELS)

end DBService

/-- True when the local-storage source yields nothing usable for
`DBService.init`: the key is absent, corrupt, not an array, or an empty
array. -/
def storedMiss : Stored → Bool
  | .arr (_ :: _) => false
  | _ => true

/-- True when the remote fetch yields nothing usable for `DBService.init`:
the fetch failed, the response was not ok, its body did not parse, parsed
to a non-array, or parsed to an empty array. -/
def fetchMiss : FetchResult → Bool
  | .arr (_ :: _) => false
  | _ => true

/-! ## Auth gate (`services/auth.ts`, `components/LoginModal.tsx`)

The auth flag is the value of the `gemini_tv_auth` local-storage key
(`none` when absent). -/

namespace AuthService

/-- `AuthService.login` (`auth.ts`): store `'true'` and return `true` when
the password is `'admin'`; otherwise return `false` leaving storage
untouched. -/
def login (password : String) (store : Option String) : Bool × Option String :=
  if password == "admin" then (true, some "true") else (false, store)

/-- `AuthService.isAuthenticated` (`auth.ts`):
`localStorage.getItem(AUTH_KEY) === 'true'`. -/
def isAuthenticated (store : Option String) : Bool :=
  store == some "true"

end AuthService

/-- The `LoginModal` component state relevant to submission
(`LoginModal.tsx`): the typed password, the error indicator, and whether
`onSuccess` has fired. -/
structure ModalState where
  password : String
  error : Bool
  succeeded : Bool
deriving DecidableEq, Repr

/-- `LoginModal.handleSubmit` (`LoginModal.tsx:25-43`): an empty password
returns immediately; otherwise `AuthService.login` is consulted — on
success `onSuccess()` fires, on failure the error indicator is set and the
password field cleared. -/
def handleSubmit (store : Option String) (m : ModalState) :
    Option String × ModalState :=
  if m.password == "" then (store, m)
  else
    match AuthService.login m.password store with
    | (true, store2) => (store2, { m with error := false, succeeded := true })
    | (false, store2) =>
        (store2, { m with error := true, succeeded := false, password := "" })

/-! ## Media session controller (`components/VideoPlayer.tsx`) -/

/-- `isHlsSource` (`VideoPlayer.tsx:159`):
`channel.videoUrl.includes('.m3u8')` — substring containment, not a suffix
test. -/
def isHlsSource (videoUrl : String) : Bool :=
  strIncludes videoUrl ".m3u8"

/-- The spec's classification, stated from its words ("URL suffix",
"a URL ending in the adaptive-manifest extension"): for comparison with
`isHlsSource`. -/
def isHlsSourceSpec (videoUrl : String) : Bool :=
  strEndsWith videoUrl ".m3u8"

/-- One imperative step of the channel-load effect
(`VideoPlayer.tsx:143-221`). -/
inductive SetupStep
  | hlsAttach (url : String)
  | nativeSet (url : String)
  | setSrc (url : String)
  | reloadVideo
  | autoPlay
deriving DecidableEq, Repr

/-- The sequence of media-setup steps issued by the channel-load effect
(`VideoPlayer.tsx:159-209`) after the previous session is torn down:
adaptive sources attach the streaming client when `Hls.isSupported()`
(autoplay deferred to `MANIFEST_PARSED`), else set the source natively when
the platform can play the manifest type (autoplay deferred to
`loadedmetadata`), else nothing; progressive sources set `video.src`, call
`video.load()`, then attempt autoplay. -/
def setupMedia (url : String) (hlsSupported canPlayNative : Bool) :
    List SetupStep :=
  if isHlsSource url then
    if hlsSupported then [.hlsAttach url]
    else if canPlayNative then [.nativeSet url]
    else []
  else [.setSrc url, .reloadVideo, .autoPlay]

/-- The error categories of the streaming client the handler distinguishes
(`Hls.ErrorTypes.NETWORK_ERROR`, `Hls.ErrorTypes.MEDIA_ERROR`, anything
else). -/
inductive HlsErrorType
  | networkError
  | mediaError
  | otherError
deriving DecidableEq, Repr

/-- The action the `Hls.Events.ERROR` handler takes on the session. -/
inductive HlsAction
  | noAction
  | startLoad
  | recoverMediaError
  | destroy
deriving DecidableEq, Repr

/-- The `Hls.Events.ERROR` handler (`VideoPlayer.tsx:178-194`): only fatal
errors are acted on — fatal network errors call `hls.startLoad()`, fatal
media errors call `hls.recoverMediaError()`, any other fatal error calls
`hls.destroy()`; non-fatal errors fall through with no action. -/
def hlsErrorHandler (fatal : Bool) (t : HlsErrorType) : HlsAction :=
  if fatal then
    match t with
    | .networkError => .startLoad
    | .mediaError => .recoverMediaError
    | .otherError => .destroy
  else .noAction

/-- The video-player UI flags the autoplay logic touches. -/
structure PlayerUI where
  muted : Bool
  playing : Bool
  buffering : Bool
deriving DecidableEq, Repr

/-- `attemptAutoPlay` (`VideoPlayer.tsx:109-141`) together with the `play`
event listener (`VideoPlayer.tsx:261-266`): the video is unmuted and played;
on rejection it is muted and played again; on renewed rejection
`isPlaying` is set to `false` and the video stays muted.  A successful
`play()` fires the `play` event, whose handler clears the buffering flag;
a rejected `play()` fires nothing, leaving the buffering flag as it was.
`unmutedOk` and `mutedOk` are the outcomes the browser's autoplay policy
gives the two attempts. -/
def attemptAutoPlay (unmutedOk mutedOk : Bool) (s : PlayerUI) : PlayerUI :=
  if unmutedOk then { s with muted := false, playing := true, buffering := false }
  else if mutedOk then { s with muted := true, playing := true, buffering := false }
  else { s with muted := true, playing := false }

/-- The muted-flags of the successive `video.play()` calls
`attemptAutoPlay` makes: always unmuted first, then muted exactly when the
unmuted attempt was rejected. -/
def autoPlayAttempts (unmutedOk : Bool) : List Bool :=
  if unmutedOk then [false] else [false, true]

/-- UI state on entering the channel-load effect: `setIsBuffering(true)`
(`VideoPlayer.tsx:151`). -/
def loadStartUI : PlayerUI :=
  { muted := false, playing := false, buffering := true }

/-- Adaptive load reaching playback: `MANIFEST_PARSED` (or native
`loadedmetadata`) sets `isBuffering` to `false` and then calls
`attemptAutoPlay` (`VideoPlayer.tsx:173-176,198-202`). -/
def loadAdaptive (unmutedOk mutedOk : Bool) : PlayerUI :=
  attemptAutoPlay unmutedOk mutedOk { loadStartUI with buffering := false }

/-- Progressive load: `attemptAutoPlay` is called directly after
`video.load()` with the buffering flag still set
(`VideoPlayer.tsx:204-209`). -/
def loadProgressive (unmutedOk mutedOk : Bool) : PlayerUI :=
  attemptAutoPlay unmutedOk mutedOk loadStartUI

/-- The play affordance overlay (`VideoPlayer.tsx:439-445`) renders exactly
when `!isPlaying && !isBuffering`. -/
def playAffordanceShown (s : PlayerUI) : Bool :=
  !s.playing && !s.buffering

/-! ## Voice assistant bridge (`services/geminiLive.ts`,
`components/VoiceRemote.tsx`) -/

/-- The `ConnectionState` enum of `types.ts`. -/
inductive ConnectionState
  | DISCONNECTED
  | CONNECTING
  | CONNECTED
  | ERROR
deriving DecidableEq, Repr

/-- The native resources the `GeminiLiveService` instance holds: the
session handle, the microphone stream, the script processor, the input
source node, the two audio contexts, and the number of scheduled playback
buffer sources (`this.sources`). -/
structure LiveResources where
  sessionOpen : Bool
  micStream : Bool
  processorAttached : Bool
  inputSourceAttached : Bool
  inputCtxOpen : Bool
  outputCtxOpen : Bool
  scheduledBuffers : Nat
deriving DecidableEq, Repr

/-- All resources released, no buffers scheduled. -/
def LiveResources.allClear : LiveResources :=
  ⟨false, false, false, false, false, false, 0⟩

namespace GeminiLiveService

/-- `stopAudioOutput` (`geminiLive.ts:208-214`): stop every scheduled
buffer source and clear the set. -/
def stopAudioOutput (r : LiveResources) : LiveResources :=
  { r with scheduledBuffers := 0 }

/-- `disconnect` (`geminiLive.ts:216-249`): close the session if present,
detach the processor and input source, stop the microphone tracks, close
both audio contexts, null every reference, and finally `stopAudioOutput`. -/
def disconnect (r : LiveResources) : LiveResources :=
  stopAudioOutput
    { r with
      sessionOpen := false
      processorAttached := false
      inputSourceAttached := false
      micStream := false
      inputCtxOpen := false
      outputCtxOpen := false }

end GeminiLiveService

/-- The three ways a live session ends. -/
inductive ExitPath
  | userStop
  | serverClose
  | transportError
deriving DecidableEq, Repr

/-- What the code runs on each exit path.  Explicit user stop
(`VoiceRemote.toggleConnection`, `VoiceRemote.tsx:18-22`, likewise the
unmount cleanup) calls `GeminiLiveService.disconnect` and sets the status
to `DISCONNECTED`.  A normal server close runs only the `onclose` callback
(`geminiLive.ts:190-192`), which sets the status to `DISCONNECTED`; a
transport error runs only the `onerror` callback (`geminiLive.ts:193-196`),
which sets the status to `ERROR`; neither callback touches the resources. -/
def onSessionExit (e : ExitPath) (r : LiveResources) :
    LiveResources × ConnectionState :=
  match e with
  | .userStop => (GeminiLiveService.disconnect r, .DISCONNECTED)
  | .serverClose => (r, .DISCONNECTED)
  | .transportError => (r, .ERROR)

/-! ## Test fixtures

Small concrete channels (no optional fields) used by witnesses and
counterexamples. -/

/-- A progressive-source channel without optional fields. -/
def chA : Channel :=
  { id := "a", name := "Alpha One", category := "cat", description := "d",
    videoUrl := "http://x/a.mp4", thumbnail := "t", currentProgram := "p" }

/-- An adaptive-source channel without optional fields. -/
def chB : Channel :=
  { id := "b", name := "Beta Two", category := "cat", description := "d",
    videoUrl := "http://x/b.m3u8", thumbnail := "t", currentProgram := "p" }

/-- `chA` with an explicit favorite flag. -/
def chFav : Channel :=
  { chA with isFavorite := some true }

/-! ## Claims -/

/-- C1: after `handleSaveChannels`, if the previously active channel id no
longer references a channel of the new collection, the active id is
re-pointed to the first channel of the new collection; whenever the new
collection is non-empty, the active id references an existing channel; and
when the new collection is empty no channel is referenced by the retained
active id (the shell renders the no-channel screen in that case). -/
theorem handleSaveChannels_activeId_invariant
    (updated : List Channel) (cur : String) :
    (∀ c cs, updated = c :: cs → (∀ x ∈ updated, x.id ≠ cur) →
      (handleSaveChannels updated cur).2 = c.id) ∧
    (updated ≠ [] → ∃ x ∈ updated, x.id = (handleSaveChannels updated cur).2) ∧
    (updated = [] → ∀ x ∈ updated, x.id ≠ (handleSaveChannels updated cur).2) := by
  refine ⟨?_, ?_, ?_⟩
  · rintro c cs rfl h
    have hf : (c :: cs).find? (fun x => x.id == cur) = none := by
      rw [List.find?_eq_none]
      intro x hx
      simpa using h x hx
    simp [handleSaveChannels, hf]
  · intro hne
    cases hfind : updated.find? (fun x => x.id == cur) with
    | some t =>
        refine ⟨t, List.mem_of_find?_eq_some hfind, ?_⟩
        have ht : t.id = cur := by simpa using List.find?_some hfind
        simp [handleSaveChannels, hfind, ht]
    | none =>
        cases updated with
        | nil => exact absurd rfl hne
        | cons c cs =>
            exact ⟨c, List.mem_cons_self c cs, by simp [handleSaveChannels, hfind]⟩
  · rintro rfl x hx
    exact absurd hx (List.not_mem_nil x)

/-- Witness for C1 at a concrete save: the stale id `"a"` is re-pointed to
the first channel of `[chB]`, which the new active id references. -/
theorem handleSaveChannels_activeId_invariant_witness :
    (handleSaveChannels [chB] "a").2 = chB.id ∧
    ∃ x ∈ [chB], x.id = (handleSaveChannels [chB] "a").2 :=
  ⟨(handleSaveChannels_activeId_invariant [chB] "a").1 chB [] rfl (by decide),
   (handleSaveChannels_activeId_invariant [chB] "a").2.1 (by decide)⟩

/-- C2 counterexample: the round-trip fails for the empty collection —
after `saveAllChannels []`, `init` ignores the stored empty array and falls
back (here to the built-in defaults), returning a non-empty list instead of
`[]`. -/
theorem init_after_save_empty_not_roundtrip :
    (DBService.init (DBService.saveAllChannels [] .absent) .fail).fst
        = DEFAULT_CHANNELS ∧
    DEFAULT_CHANNELS ≠ ([] : List Channel) := by
  refine ⟨rfl, ?_⟩
  simp [DEFAULT_CHANNELS]

/-- C2 (amended): for every NON-EMPTY channel collection, `init` after
`saveAllChannels` returns exactly that collection, whatever the previous
storage state and whatever the remote fetch would return. -/
theorem init_saveAllChannels_roundtrip (cs : List Channel) (h : cs ≠ [])
    (s : Stored) (f : FetchResult) :
    (DBService.init (DBService.saveAllChannels cs s) f).fst = cs := by
  cases cs with
  | nil => exact absurd rfl h
  | cons c t => rfl

/-- Witness for the amended C2 at a concrete non-empty collection. -/
theorem init_saveAllChannels_roundtrip_witness :
    (DBService.init (DBService.saveAllChannels [chA] .absent) .fail).fst = [chA] :=
  init_saveAllChannels_roundtrip [chA] (by decide) .absent .fail

/-- C4: `DBService.init` tries the sources in priority order — the
local-storage collection when it parses to a non-empty array, else the
fetched collection when the response is usable and non-empty, else the
built-in `DEFAULT_CHANNELS` — and, being total, never throws to the
caller. -/
theorem init_source_priority (s : Stored) (f : FetchResult) :
    (∀ c cs, s = .arr (c :: cs) → (DBService.init s f).fst = c :: cs) ∧
    (storedMiss s = true → ∀ c cs, f = .arr (c :: cs) →
      (DBService.init s f).fst = c :: cs) ∧
    (storedMiss s = true → fetchMiss f = true →
      (DBService.init s f).fst = DEFAULT_CHANNELS) := by
  refine ⟨?_, ?_, ?_⟩
  · rintro c cs rfl; rfl
  · rintro hs c cs rfl
    cases s with
    | absent => rfl
    | corrupt => rfl
    | nonArray => rfl
    | arr l =>
        cases l with
        | nil => rfl
        | cons a t => simp [storedMiss] at hs
  · intro hs hf
    cases s with
    | absent => cases f with
      | fail => rfl
      | notOk => rfl
      | jsonThrows => rfl
      | nonArray => rfl
      | arr m => cases m with
        | nil => rfl
        | cons a t => simp [fetchMiss] at hf
    | corrupt => cases f with
      | fail => rfl
      | notOk => rfl
      | jsonThrows => rfl
      | nonArray => rfl
      | arr m => cases m with
        | nil => rfl
        | cons a t => simp [fetchMiss] at hf
    | nonArray => cases f with
      | fail => rfl
      | notOk => rfl
      | jsonThrows => rfl
      | nonArray => rfl
      | arr m => cases m with
        | nil => rfl
        | cons a t => simp [fetchMiss] at hf
    | arr l =>
        cases l with
        | cons a t => simp [storedMiss] at hs
        | nil => cases f with
          | fail => rfl
          | notOk => rfl
          | jsonThrows => rfl
          | nonArray => rfl
          | arr m => cases m with
            | nil => rfl
            | cons a t => simp [fetchMiss] at hf

/-- Witness for C4: each of the three priority levels exercised at a
concrete input. -/
theorem init_source_priority_witness :
    (DBService.init (.arr [chA]) .fail).fst = [chA] ∧
    (DBService.init .corrupt (.arr [chB])).fst = [chB] ∧
    (DBService.init .absent .notOk).fst = DEFAULT_CHANNELS :=
  ⟨(init_source_priority (.arr [chA]) .fail).1 chA [] rfl,
   (init_source_priority .corrupt (.arr [chB])).2.1 rfl chB [] rfl,
   (init_source_priority .absent .notOk).2.2 rfl rfl⟩

/-- C10: `handleChannelChange` resolves the requested identifier in
priority order — a channel whose id equals the input exactly (the active id
then becomes that input), else a channel whose lowercased name contains the
lowercased input, else a channel whose id contains the input as a
substring — and when no channel matches under any rule the active id is
left unchanged. -/
theorem handleChannelChange_resolution (cs : List Channel) (input cur : String) :
    ((∃ c ∈ cs, c.id = input) → handleChannelChange cs input cur = input) ∧
    ((∀ c ∈ cs, c.id ≠ input) →
      (∃ c ∈ cs, strIncludes (strToLower c.name) (strToLower input) = true) →
      ∃ t ∈ cs, strIncludes (strToLower t.name) (strToLower input) = true ∧
        handleChannelChange cs input cur = t.id) ∧
    ((∀ c ∈ cs, c.id ≠ input) →
      (∀ c ∈ cs, strIncludes (strToLower c.name) (strToLower input) = false) →
      (∃ c ∈ cs, strIncludes c.id input = true) →
      ∃ t ∈ cs, strIncludes t.id input = true ∧
        handleChannelChange cs input cur = t.id) ∧
    ((∀ c ∈ cs, c.id ≠ input) →
      (∀ c ∈ cs, strIncludes (strToLower c.name) (strToLower input) = false) →
      (∀ c ∈ cs, strIncludes c.id input = false) →
      handleChannelChange cs input cur = cur) := by
  refine ⟨?_, ?_, ?_, ?_⟩
  · intro hex
    have hsome : (cs.find? (fun c => c.id == input)).isSome := by
      rw [List.find?_isSome]
      obtain ⟨c, hc, hid⟩ := hex
      exact ⟨c, hc, by simpa using hid⟩
    obtain ⟨t, ht⟩ := Option.isSome_iff_exists.mp hsome
    have hid : t.id = input := by simpa using List.find?_some ht
    simp [handleChannelChange, ht, hid]
  · intro hmiss hex
    have h1 : cs.find? (fun c => c.id == input) = none := by
      rw [List.find?_eq_none]
      intro x hx
      simpa using hmiss x hx
    have hsome : (cs.find? (fun c =>
        strIncludes (strToLower c.name) (strToLower input))).isSome := by
      rw [List.find?_isSome]
      obtain ⟨c, hc, hn⟩ := hex
      exact ⟨c, hc, hn⟩
    obtain ⟨t, ht⟩ := Option.isSome_iff_exists.mp hsome
    exact ⟨t, List.mem_of_find?_eq_some ht, by simpa using List.find?_some ht,
      by simp [handleChannelChange, h1, ht]⟩
  · intro hmiss hname hex
    have h1 : cs.find? (fun c => c.id == input) = none := by
      rw [List.find?_eq_none]
      intro x hx
      simpa using hmiss x hx
    have h2 : cs.find? (fun c =>
        strIncludes (strToLower c.name) (strToLower input)) = none := by
      rw [List.find?_eq_none]
      intro x hx
      simp [hname x hx]
    have hsome : (cs.find? (fun c => strIncludes c.id input)).isSome := by
      rw [List.find?_isSome]
      obtain ⟨c, hc, hn⟩ := hex
      exact ⟨c, hc, hn⟩
    obtain ⟨t, ht⟩ := Option.isSome_iff_exists.mp hsome
    exact ⟨t, List.mem_of_find?_eq_some ht, by simpa using List.find?_some ht,
      by simp [handleChannelChange, h1, h2, ht]⟩
  · intro hmiss hname hid
    have h1 : cs.find? (fun c => c.id == input) = none := by
      rw [List.find?_eq_none]
      intro x hx
      simpa using hmiss x hx
    have h2 : cs.find? (fun c =>
        strIncludes (strToLower c.name) (strToLower input)) = none := by
      rw [List.find?_eq_none]
      intro x hx
      simp [hname x hx]
    have h3 : cs.find? (fun c => strIncludes c.id input) = none := by
      rw [List.find?_eq_none]
      intro x hx
      simp [hid x hx]
    simp [handleChannelChange, h1, h2, h3]

/-- Witness for C10: an exact id match resolves to that id, and an input
matching nothing leaves the active id unchanged. -/
theorem handleChannelChange_resolution_witness :
    handleChannelChange [chA, chB] "b" "a" = "b" ∧
    handleChannelChange [chA, chB] "zzz" "b" = "b" :=
  ⟨(handleChannelChange_resolution [chA, chB] "b" "a").1
      ⟨chB, by simp, rfl⟩,
   (handleChannelChange_resolution [chA, chB] "zzz" "b").2.2.2
      (by decide) (by decide) (by decide)⟩

/-- C3 counterexample: a non-fatal network error is ignored by the
`Hls.Events.ERROR` handler — it does not trigger a reload of the segment
window (the claim attributes the recovery actions to non-fatal errors, but
the code runs them only for fatal ones). -/
theorem hls_nonfatal_network_not_reloaded :
    hlsErrorHandler false .networkError = .noAction ∧
    HlsAction.noAction ≠ HlsAction.startLoad := by
  exact ⟨rfl, by decide⟩

/-- C3 (amended): in the adaptive-streaming error handler, FATAL network
errors trigger a reload of the current segment window (`startLoad`), FATAL
decode errors trigger decoder recovery (`recoverMediaError`), any other
FATAL error tears the session down (`destroy`, stopping playback), and
non-fatal errors are ignored by the handler (left to the streaming
client). -/
theorem hlsErrorHandler_fatal_recovery :
    hlsErrorHandler true .networkError = .startLoad ∧
    hlsErrorHandler true .mediaError = .recoverMediaError ∧
    hlsErrorHandler true .otherError = .destroy ∧
    ∀ t : HlsErrorType, hlsErrorHandler false t = .noAction := by
  refine ⟨rfl, rfl, rfl, fun t => rfl⟩

/-- C5 counterexample: on a normal server close of the live session the
resources are NOT released — only the `onclose` callback runs, which just
sets the status, leaving the microphone stream (and everything else)
held. -/
theorem serverClose_leaves_resources_held :
    (onSessionExit .serverClose ⟨true, true, true, true, true, true, 2⟩).fst
        ≠ LiveResources.allClear ∧
    (onSessionExit .serverClose ⟨true, true, true, true, true, true, 2⟩).fst.micStream
        = true := by decide

/-- C5 (amended): `GeminiLiveService.disconnect` releases the microphone
stream, closes the session, and releases all scheduled playback buffers;
it runs on explicit user stop (and component unmount), while a normal
server close or a transport error only updates the connection status
(`DISCONNECTED` resp. `ERROR`) and releases nothing. -/
theorem disconnect_releases_resources (r : LiveResources) :
    GeminiLiveService.disconnect r = LiveResources.allClear ∧
    onSessionExit .userStop r = (LiveResources.allClear, .DISCONNECTED) ∧
    onSessionExit .serverClose r = (r, .DISCONNECTED) ∧
    onSessionExit .transportError r = (r, .ERROR) := by
  refine ⟨?_, ?_, rfl, rfl⟩
  · cases r; rfl
  · cases r; rfl

/-- C6 counterexample: classification is not by URL suffix — a URL merely
containing `.m3u8` in the middle is classified adaptive by the code even
though it does not end with the adaptive-manifest extension. -/
theorem isHlsSource_not_suffix_based :
    isHlsSource "http://x/clip.m3u8.mp4" = true ∧
    isHlsSourceSpec "http://x/clip.m3u8.mp4" = false := by decide

/-- C6 (amended): a source is classified adaptive exactly when its URL
CONTAINS the adaptive-manifest extension `.m3u8` as a substring; every
other URL is a progressive file, for which the video src is set directly
and an explicit load is issued before playback is attempted. -/
theorem source_classification_progressive_load (url : String)
    (hlsSupported canPlayNative : Bool) :
    isHlsSource url = strIncludes url ".m3u8" ∧
    (isHlsSource url = false →
      setupMedia url hlsSupported canPlayNative
        = [.setSrc url, .reloadVideo, .autoPlay]) := by
  refine ⟨rfl, ?_⟩
  intro h
  simp [setupMedia, h]

/-- Witness for the amended C6 at a progressive URL. -/
theorem source_classification_progressive_load_witness :
    setupMedia "http://x/a.mp4" true true
      = [.setSrc "http://x/a.mp4", .reloadVideo, .autoPlay] :=
  (source_classification_progressive_load "http://x/a.mp4" true true).2 (by decide)

/-- Double application of the per-channel favorite toggle: an explicit flag
returns to itself, a missing flag becomes the explicit `false` (same
truthiness as missing). -/
theorem togChannel_togChannel (cid : String) (c : Channel) :
    togChannel cid (togChannel cid c)
      = if c.id == cid then { c with isFavorite := some (c.isFavorite.getD false) }
        else c := by
  by_cases h : c.id = cid
  · cases hf : c.isFavorite with
    | none => simp [togChannel, h, jsNotFav, hf]
    | some b => cases b <;> simp [togChannel, h, jsNotFav, hf]
  · simp [togChannel, h]

/-- C7 counterexample: toggling the favorite of a channel whose
`isFavorite` field is absent twice does not return the field to its
original value — the field goes `undefined → true → false`, leaving the
collection changed. -/
theorem toggleFavorite_twice_missing_flag :
    handleToggleFavorite (handleToggleFavorite [chA] "a") "a" ≠ [chA] ∧
    (handleToggleFavorite (handleToggleFavorite [chA] "a") "a").map
        (fun c => c.isFavorite) = [some false] ∧
    chA.isFavorite = none := by decide

/-- C7 (amended): toggling a channel's favorite twice restores its
favorite flag's truth value — every channel with an explicit `isFavorite`
(and every non-matching channel) is restored exactly, while a missing flag
becomes the explicit `false` (the same truthiness); a single toggle leaves
every other channel unchanged. -/
theorem toggleFavorite_twice (cs : List Channel) (cid : String) :
    handleToggleFavorite (handleToggleFavorite cs cid) cid
      = cs.map (fun c =>
          if c.id == cid then { c with isFavorite := some (c.isFavorite.getD false) }
          else c) ∧
    (∀ c : Channel, c.id ≠ cid → togChannel cid c = c) ∧
    (∀ (c : Channel) (b : Bool), c.isFavorite = some b → c.id = cid →
      togChannel cid (togChannel cid c) = c) := by
  refine ⟨?_, ?_, ?_⟩
  · rw [handleToggleFavorite, handleToggleFavorite, List.map_map]
    exact List.map_congr_left fun c _ => togChannel_togChannel cid c
  · intro c h
    simp [togChannel, h]
  · intro c b hf hid
    have hbeq : (c.id == cid) = true := by simpa using hid
    rw [togChannel_togChannel, if_pos hbeq, hf, Option.getD_some, ← hf]

/-- Witness for the amended C7: a non-matching channel is untouched by the
toggle, and a channel with an explicit flag is restored by the double
toggle. -/
theorem toggleFavorite_twice_witness :
    togChannel "a" chB = chB ∧
    togChannel "a" (togChannel "a" chFav) = chFav :=
  ⟨(toggleFavorite_twice [chFav] "a").2.1 chB (by decide),
   (toggleFavorite_twice [chFav] "a").2.2 chFav true rfl rfl⟩

/-- C8 counterexample: on a progressive channel load whose unmuted and
muted play attempts are both rejected, the player is left paused but the
play affordance is NOT surfaced — the buffering flag set at the start of
the load is never cleared, so the buffering overlay covers the affordance
condition. -/
theorem progressive_double_reject_no_affordance :
    (loadProgressive false false).playing = false ∧
    (loadProgressive false false).buffering = true ∧
    playAffordanceShown (loadProgressive false false) = false := by decide

/-- C8 (amended): playback is always attempted unmuted first; a rejected
attempt is retried muted; if the muted retry is also rejected the player is
left paused and muted, and the play affordance (rendered when neither
playing nor buffering) is surfaced on adaptive loads — where manifest
parsing cleared the buffering flag before the attempt — while a
progressive load keeps the buffering indicator shown instead. -/
theorem autoplay_unmuted_first_fallback (unmutedOk mutedOk : Bool) :
    (autoPlayAttempts unmutedOk).head? = some false ∧
    (unmutedOk = false → autoPlayAttempts unmutedOk = [false, true]) ∧
    (unmutedOk = false → mutedOk = false →
      (loadAdaptive unmutedOk mutedOk).playing = false ∧
      (loadAdaptive unmutedOk mutedOk).muted = true ∧
      playAffordanceShown (loadAdaptive unmutedOk mutedOk) = true ∧
      (loadProgressive unmutedOk mutedOk).playing = false ∧
      (loadProgressive unmutedOk mutedOk).buffering = true ∧
      playAffordanceShown (loadProgressive unmutedOk mutedOk) = false) := by
  refine ⟨?_, ?_, ?_⟩
  · cases unmutedOk <;> rfl
  · rintro rfl; rfl
  · rintro rfl rfl
    exact ⟨rfl, rfl, rfl, rfl, rfl, rfl⟩

/-- Witness for the amended C8 with both attempts rejected. -/
theorem autoplay_unmuted_first_fallback_witness :
    (autoPlayAttempts false).head? = some false ∧
    autoPlayAttempts false = [false, true] ∧
    playAffordanceShown (loadAdaptive false false) = true :=
  ⟨(autoplay_unmuted_first_fallback false false).1,
   (autoplay_unmuted_first_fallback false false).2.1 rfl,
   ((autoplay_unmuted_first_fallback false false).2.2 rfl rfl).2.2.1⟩

/-- C9 counterexample: submitting the empty password is a silent no-op —
`handleSubmit` returns before consulting `AuthService.login`, so no error
indicator is surfaced even though the empty string is not the admin
password. -/
theorem empty_password_no_error_indicator :
    (handleSubmit none { password := "", error := false, succeeded := false }).2.error
        = false ∧
    ("" : String) ≠ "admin" := by decide

/-- C9 (amended): `AuthService.login` returns `true` and persists the
authenticated flag exactly when the password is `'admin'`; any other
password returns `false` with the stored state untouched, and for any
other NON-EMPTY submitted password the login modal surfaces the error
indicator (the empty string is ignored by the submit handler). -/
theorem login_correctness (password : String) (store : Option String)
    (m : ModalState) :
    ((AuthService.login password store).1 = true ↔ password = "admin") ∧
    (password = "admin" →
      AuthService.login password store = (true, some "true") ∧
      AuthService.isAuthenticated (AuthService.login password store).2 = true) ∧
    (password ≠ "admin" → AuthService.login password store = (false, store)) ∧
    (m.password ≠ "admin" → m.password ≠ "" →
      (handleSubmit store m).1 = store ∧
      (handleSubmit store m).2.error = true ∧
      (handleSubmit store m).2.succeeded = false) := by
  refine ⟨?_, ?_, ?_, ?_⟩
  · by_cases h : password = "admin" <;> simp [AuthService.login, h]
  · rintro rfl
    exact ⟨rfl, rfl⟩
  · intro h
    simp [AuthService.login, h]
  · intro h1 h2
    have hpw : (m.password == "") = false := by simpa using h2
    simp [handleSubmit, AuthService.login, h1, hpw]

/-- Witness for the amended C9: the admin password authenticates, a wrong
non-empty password is rejected with the error indicator surfaced and the
stored flag untouched. -/
theorem login_correctness_witness :
    AuthService.login "admin" none = (true, some "true") ∧
    AuthService.login "xx" none = (false, none) ∧
    (handleSubmit none { password := "xx", error := false, succeeded := false }).2.error
        = true :=
  ⟨((login_correctness "admin" none
      { password := "xx", error := false, succeeded := false }).2.1 rfl).1,
   (login_correctness "xx" none
      { password := "xx", error := false, succeeded := false }).2.2.1 (by decide),
   ((login_correctness "xx" none
      { password := "xx", error := false, succeeded := false }).2.2.2
      (by decide) (by decide)).2.1⟩
